import Mathlib

set_option maxHeartbeats 1000000

/-!
Shallow embedding of the OVAL filesystem walker of this repository
(src/OVAL/probes/oval_fts.c): the open/read lifecycle, the per-entry
matching and recursion-steering logic, and a driver model.

Modelling conventions:
* C strings are Lean `String`s at character granularity (ASCII paths), and
  `strncpy`-style prefix extraction is `cTake` below.
* External collaborators, which the specification lists as out of scope of
  the sources (the S-expression entity matcher `probe_entobj_cmp`, the PCRE
  engine, the `fts` traversal driver, the `fsdev` device set), are modelled
  as parameters or as environment records, following spec section 6.
* Numeric enum codes from headers that are not part of the sources
  (oval_fts.h, oval_definitions.h) are modelled from the spec; only their
  distinctness and their difference from -1 matters to the code.
-/

/-- PCRE return code for a failed match, from pcre.h. -/
def PCRE_ERROR_NOMATCH : Int := -1

/-- PCRE return code reporting a partial match, from pcre.h. -/
def PCRE_ERROR_PARTIAL : Int := -12

/-- PCRE return code reporting that the compiled pattern does not support
PCRE_PARTIAL, from pcre.h. -/
def PCRE_ERROR_BADPARTIAL : Int := -13

/-- Modelled from the spec: numeric code of the EQUALS entity operation
(oval_definitions.h is not among the sources). -/
def OVAL_OPERATION_EQUALS : Nat := 1

/-- Modelled from the spec: numeric code of the NOT_EQUAL entity operation. -/
def OVAL_OPERATION_NOT_EQUAL : Nat := 2

/-- Modelled from the spec: numeric code of the PATTERN_MATCH entity operation. -/
def OVAL_OPERATION_PATTERN_MATCH : Nat := 9

/-- Modelled from the spec: recurse_direction code for "none" (oval_fts.h is
not among the sources). -/
def OVAL_RECURSE_DIRECTION_NONE : Int := 0

/-- Modelled from the spec: recurse_direction code for "down". -/
def OVAL_RECURSE_DIRECTION_DOWN : Int := 1

/-- Modelled from the spec: recurse_direction code for "up". -/
def OVAL_RECURSE_DIRECTION_UP : Int := 2

/-- Modelled from the spec: bit flag for recursing through symlinks. -/
def OVAL_RECURSE_SYMLINKS : Nat := 1

/-- Modelled from the spec: bit flag for recursing through directories. -/
def OVAL_RECURSE_DIRS : Nat := 2

/-- Modelled from the spec: "symlinks and directories" recurse mask. -/
def OVAL_RECURSE_SYMLINKS_AND_DIRS : Nat := 3

/-- Modelled from the spec: bit flag for recursing through files. -/
def OVAL_RECURSE_FILES : Nat := 4

/-- Modelled from the spec: "files and directories" recurse mask. -/
def OVAL_RECURSE_FILES_AND_DIRS : Nat := 6

/-- Modelled from the spec: recurse_file_system code for "local". -/
def OVAL_RECURSE_FS_LOCAL : Int := 0

/-- Modelled from the spec: recurse_file_system code for "all". -/
def OVAL_RECURSE_FS_ALL : Int := 1

/-- Modelled from the spec: recurse_file_system code for "defined". -/
def OVAL_RECURSE_FS_DEFINED : Int := 2

/-- Result of the external entity matcher `probe_entobj_cmp` (spec section 6):
the walker only distinguishes OVAL_RESULT_TRUE from everything else. -/
inductive OvalResult where
  | tru
  | fls
  | err
  deriving DecidableEq

/-- Info tag of a driver entry, after fts.h as described in spec section 4.3. -/
inductive FtsInfo where
  | D
  | DP
  | DC
  | F
  | SL
  | SLNONE
  deriving DecidableEq

/-- One driver entry (the fields of FTSENT the walker reads).  `fts_statp` is
the device id of the stat buffer when one is attached, else `none`. -/
structure FTSENT where
  fts_path : String
  fts_pathlen : Nat
  fts_name : String
  fts_namelen : Nat
  fts_level : Int
  fts_info : FtsInfo
  fts_statp : Option Nat
  deriving DecidableEq

/-- The record yielded to the caller (OVAL_FTSENT).  `file = none` models the
NULL file pointer of path-only mode, where `file_len` is -1. -/
structure OVAL_FTSENT where
  path : String
  path_len : Int
  file : Option String
  file_len : Int
  deriving DecidableEq

/-- Membership tests of a device-set snapshot (fsdev.c is external to the
sources; spec section 4.1). -/
structure Fsdev where
  search : Nat → Bool
  bypath : String → Bool

/-- The walker handle (OVAL_FTS).  Entity references are opaque ids keyed
into the entity-matcher parameter; the compiled regex is represented by its
pattern source when retained. -/
structure OVAL_FTS where
  ofts_st_path : List String
  ofts_st_path_count : Nat
  ofts_st_path_index : Nat
  ofts_spath : Option Nat
  ofts_sfilename : Option Nat
  ofts_sfilepath : Option Nat
  ofts_path_regex : Option String
  ofts_path_op : Nat
  max_depth : Int
  direction : Int
  recurse : Nat
  filesystem : Int
  localdevs : Option Fsdev

/-- Character-level model of `strncpy(dst, src, n); dst[n] = 0` for `n` at
most the length of `src`. -/
def cTake (s : String) (n : Nat) : String :=
  String.mk (s.data.take n)

/-- Joining a directory portion and a basename with a single separating
slash (no slash is added when the directory portion already ends in one). -/
def joinPath (p f : String) : String :=
  if p.data.getLast? = some '/' then p ++ f else p ++ "/" ++ f

/-- Translation of `pathlen_from_ftse` (oval_fts.c lines 96-109). -/
def pathlen_from_ftse (fts_pathlen fts_namelen : Nat) : Nat :=
  if fts_pathlen > fts_namelen then
    let pathlen := fts_pathlen - fts_namelen
    if pathlen > 1 then pathlen - 1 else pathlen
  else
    fts_pathlen

/-- Translation of `OVAL_FTSENT_new` (oval_fts.c lines 111-140). -/
def OVAL_FTSENT_new (ofts : OVAL_FTS) (fts_ent : FTSENT) : OVAL_FTSENT :=
  if ofts.ofts_sfilename.isSome ∨ ofts.ofts_sfilepath.isSome then
    let plen := pathlen_from_ftse fts_ent.fts_pathlen fts_ent.fts_namelen
    { path := cTake fts_ent.fts_path plen
      path_len := (plen : Int)
      file := some fts_ent.fts_name
      file_len := (fts_ent.fts_namelen : Int) }
  else
    { path := fts_ent.fts_path
      path_len := (fts_ent.fts_pathlen : Int)
      file := none
      file_len := -1 }

/-- `fsdev_search(NULL, id)` is taken to report non-membership; for a live
set it consults the snapshot. -/
def fsdev_search (devs : Option Fsdev) (id : Nat) : Int :=
  match devs with
  | some d => if d.search id then 1 else 0
  | none => 0

/-- Path-keyed device-set lookup, as `fsdev_search` but resolving a path. -/
def fsdev_path (devs : Option Fsdev) (p : String) : Int :=
  match devs with
  | some d => if d.bypath p then 1 else 0
  | none => 0

/-- Translation of `OVAL_FTS_localp` (oval_fts.c lines 150-158). -/
def OVAL_FTS_localp (ofts : OVAL_FTS) (path : Option String) (id : Option Nat) : Bool :=
  match id with
  | some i => fsdev_search ofts.localdevs i = 1
  | none =>
    match path with
    | some p => fsdev_path ofts.localdevs p = 1
    | none => false

/-- `probe_entobj_cmp` applied through an optional entity reference; a NULL
reference (which cannot occur for a handle built by open) compares as error. -/
def cmpOpt (cmp : Nat → String → OvalResult) (e : Option Nat) (s : String) : OvalResult :=
  match e with
  | some i => cmp i s
  | none => .err

/-- Directive the read loop attaches to the current driver entry via
`fts_set`: nothing, FTS_SKIP, or FTS_FOLLOW (last write wins in C). -/
inductive Steer where
  | go
  | skip
  | follow
  deriving DecidableEq

/-- Outcome of one iteration of the read loop on one driver entry:
`abort` models the `return NULL` on a hard pcre_exec error, `cont` carries
the candidate record (if the entry matched) and the steering directive. -/
inductive StepResult where
  | abort
  | cont (y : Option OVAL_FTSENT) (steer : Steer)
  deriving DecidableEq

/-- The candidate record of a step, none for an abort. -/
def StepResult.yieldOpt : StepResult → Option OVAL_FTSENT
  | .abort => none
  | .cont y _ => y

/-- Candidate evaluation of `oval_fts_read` (oval_fts.c lines 442-482):
symlink entries are never records; filepath mode compares the full path;
path+filename mode compares the directory portion and basename, with the
directory comparison forced to TRUE under the EQUALS operation (the
"repulsive hack"); path-only mode compares the full path of directories. -/
def yieldOf (cmp : Nat → String → OvalResult) (ofts : OVAL_FTS) (ent : FTSENT) :
    Option OVAL_FTSENT :=
  if ent.fts_info = .SL then
    none
  else if ofts.ofts_sfilepath.isSome then
    if ent.fts_info ≠ .D ∧ cmpOpt cmp ofts.ofts_sfilepath ent.fts_path = .tru then
      some (OVAL_FTSENT_new ofts ent)
    else
      none
  else if (ofts.ofts_sfilename.isSome ∧ ent.fts_info ≠ .D)
      ∨ (ofts.ofts_sfilename.isNone ∧ ent.fts_info = .D) then
    let stmp := if ofts.ofts_sfilename.isNone then ent.fts_path
                else cTake ent.fts_path (pathlen_from_ftse ent.fts_pathlen ent.fts_namelen)
    let m1 : Bool := cmpOpt cmp ofts.ofts_spath stmp = .tru
    let m2 : Bool := if ofts.ofts_path_op = OVAL_OPERATION_EQUALS then true else m1
    let m3 : Bool := if m2 ∧ ofts.ofts_sfilename.isSome then
                       cmpOpt cmp ofts.ofts_sfilename ent.fts_name = .tru
                     else m2
    if m3 then some (OVAL_FTSENT_new ofts ent) else none
  else
    none

/-- Recursion steering of `oval_fts_read` (oval_fts.c lines 484-583): the
switch on the handle's direction field.  A direction that matches no case
(-1, as left by filepath-mode open) issues no directive. -/
def steerEntry (ofts : OVAL_FTS) (ent : FTSENT) : Steer :=
  if ofts.direction = OVAL_RECURSE_DIRECTION_NONE then
    if ofts.ofts_path_op ≠ OVAL_OPERATION_EQUALS then .go
    else if ofts.ofts_sfilename.isNone ∧ ofts.ofts_sfilepath.isNone then .skip
    else if ent.fts_level > 0 then .skip
    else .go
  else if ofts.direction = OVAL_RECURSE_DIRECTION_DOWN then
    if ent.fts_level = 0 ∧ ofts.ofts_sfilename.isSome then .go
    else if ent.fts_level ≤ ofts.max_depth ∨ ofts.max_depth = -1 then
      match ent.fts_info with
      | .D =>
        if ofts.recurse &&& OVAL_RECURSE_DIRS = 0 then .skip
        else if ofts.filesystem = OVAL_RECURSE_FS_LOCAL
            ∧ OVAL_FTS_localp ofts (some ent.fts_path) ent.fts_statp = false then .skip
        else .go
      | .SL =>
        if ofts.recurse &&& OVAL_RECURSE_SYMLINKS = 0 then .skip
        else if ofts.filesystem = OVAL_RECURSE_FS_LOCAL
            ∧ OVAL_FTS_localp ofts (some ent.fts_path) ent.fts_statp = false then .skip
        else .follow
      | _ => .go
    else .skip
  else if ofts.direction = OVAL_RECURSE_DIRECTION_UP then .skip
  else .go

/-- One iteration of the read loop of `oval_fts_read` (oval_fts.c lines
393-587) on one driver entry: discard post-order and cycle entries, apply
the partial-match pruning block when a pruning regex is retained (`pcre`
models `pcre_exec` of that regex on a length-limited subject), then evaluate
the candidate and steer.  A PARTIAL result short-circuits the loop body, so
the steering switch (and with it the depth check) is not reached. -/
def processEntry (cmp : Nat → String → OvalResult) (pcre : String → Nat → Int)
    (ofts : OVAL_FTS) (ent : FTSENT) : StepResult :=
  match ent.fts_info with
  | .DP => .cont none .go
  | .DC => .cont none .go
  | _ =>
    if ofts.ofts_path_regex.isSome ∧ (ent.fts_info = .D ∨ ent.fts_info = .SL) then
      let pathlen := if ofts.ofts_sfilename.isNone then ent.fts_pathlen
                     else pathlen_from_ftse ent.fts_pathlen ent.fts_namelen
      let ret := pcre ent.fts_path pathlen
      if ret < 0 then
        if ret = PCRE_ERROR_NOMATCH then .cont none .skip
        else if ret = PCRE_ERROR_PARTIAL then
          .cont none (if ent.fts_info = .SL then .follow else .go)
        else .abort
      else
        .cont (yieldOf cmp ofts ent) (steerEntry ofts ent)
    else
      .cont (yieldOf cmp ofts ent) (steerEntry ofts ent)

/-- A filesystem forest node for the driver model (the fts driver is external
to the sources; spec section 4.3): the entry as first presented, the entry a
FOLLOW directive re-presents (resolved symlink target), and the children
visited when the driver descends. -/
inductive FSTree where
  | node (ent : FTSENT) (fent : Option FTSENT) (children : List FSTree)

/-- Driver model: the pre-order run of the read loop over a work list of
subtrees, accumulating every record the iteration yields and whether it
aborted.  Descent happens below directory entries not steered to skip; a
followed symlink is re-presented as its resolved entry, whose directory
children are then visited.  Fuel only truncates long runs (a truncated run
yields a prefix); every concrete run below is given ample fuel. -/
def runLoop (cmp : Nat → String → OvalResult) (pcre : String → Nat → Int)
    (ofts : OVAL_FTS) : Nat → List FSTree → List OVAL_FTSENT × Bool
  | 0, _ => ([], false)
  | _ + 1, [] => ([], false)
  | fuel + 1, FSTree.node ent fent cs :: rest =>
    match processEntry cmp pcre ofts ent with
    | .abort => ([], true)
    | .cont y steer =>
      let tail : List FSTree :=
        if steer = .skip then rest
        else if ent.fts_info = .D then cs ++ rest
        else if ent.fts_info = .SL then
          match steer, fent with
          | .follow, some fe => FSTree.node fe none cs :: rest
          | _, _ => rest
        else rest
      let r := runLoop cmp pcre ofts fuel tail
      (y.toList ++ r.1, r.2)

/-- String value of an entity as extracted by PROBE_ENT_STRVAL: extraction
error, nil value, or a string. -/
inductive StrVal where
  | err
  | nil
  | val (s : String)
  deriving DecidableEq

/-- An inbound entity object: an opaque reference id, the optional
"operation" attribute, and the string value. -/
structure EntityDef where
  eid : Nat
  operation : Option Nat
  strval : StrVal
  deriving DecidableEq

/-- The behaviors record: the four keyed attributes open consults, each
possibly absent. -/
structure BehaviorsDef where
  max_depth : Option String
  recurse_direction : Option String
  recurse : Option String
  recurse_file_system : Option String
  deriving DecidableEq

/-- PCRE compile-time environment for open: whether a pattern compiles, the
PCRE_INFO_FIRSTBYTE result of the compiled pattern (47 for a literal '/',
-2 for a caret-anchored pattern), and the `pcre_exec` return of the
PCRE_PARTIAL probe on the fixed test subject. -/
structure PcreEnv where
  compiles : String → Bool
  firstbyte : String → Int
  probeRet : String → Int

/-- OS environment for open: whether `fts_open` and `fsdev_init` succeed and
the device-set snapshot the latter returns. -/
structure SysEnv where
  fts_open_ok : Bool
  fsdev_init_ok : Bool
  devs : Fsdev

/-- Heap resources `oval_fts_open` acquires; used to audit what every return
path leaves allocated outside the returned handle. -/
inductive Res where
  | paths_vec
  | ofts_struct
  | fts_handle
  | regex
  | regex_study
  | devset
  deriving DecidableEq

/-- Outcome of open: a handle (owning its sub-resources), a NULL return with
the resources the call leaked, or the undefined behavior of dereferencing
the NULL result of OVAL_FTS_new (oval_fts.c line 307). -/
inductive OpenOutcome where
  | ok (ofts : OVAL_FTS)
  | fail (leaked : List Res)
  | crash (leaked : List Res)

/-- Accumulate the decimal digits strtol consumes. -/
def digitsVal : List Char → Nat → Nat
  | [], acc => acc
  | c :: cs, acc => if c.isDigit then digitsVal cs (acc * 10 + (c.toNat - 48)) else acc

/-- Base-10 `strtol`: optional leading spaces and sign, then the longest
digit run, 0 if none (the unreliable errno check after strtol in the source
is not modelled: no failure arises here). -/
def strtol10 (s : String) : Int :=
  match s.data.dropWhile Char.isWhitespace with
  | '-' :: rest => -(digitsVal rest 0 : Int)
  | '+' :: rest => (digitsVal rest 0 : Int)
  | cs => (digitsVal cs 0 : Int)

/-- Parse of the recurse_direction attribute value (oval_fts.c lines 227-237). -/
def parseDirection (s : String) : Option Int :=
  if s = "none" then some OVAL_RECURSE_DIRECTION_NONE
  else if s = "down" then some OVAL_RECURSE_DIRECTION_DOWN
  else if s = "up" then some OVAL_RECURSE_DIRECTION_UP
  else none

/-- Parse of the recurse attribute (oval_fts.c lines 244-263); absence
defaults to symlinks-and-directories. -/
def parseRecurse : Option String → Option Nat
  | none => some OVAL_RECURSE_SYMLINKS_AND_DIRS
  | some s =>
    if s = "symlinks and directories" then some OVAL_RECURSE_SYMLINKS_AND_DIRS
    else if s = "files and directories" then some OVAL_RECURSE_FILES_AND_DIRS
    else if s = "symlinks" then some OVAL_RECURSE_SYMLINKS
    else if s = "directories" then some OVAL_RECURSE_DIRS
    else none

/-- Parse of the recurse_file_system attribute (oval_fts.c lines 270-289);
absence defaults to "all".  The FTS_XDEV driver option raised for "defined"
lives inside the external driver and is not part of the handle. -/
def parseFilesystem : Option String → Option Int
  | none => some OVAL_RECURSE_FS_ALL
  | some s =>
    if s = "local" then some OVAL_RECURSE_FS_LOCAL
    else if s = "all" then some OVAL_RECURSE_FS_ALL
    else if s = "defined" then some OVAL_RECURSE_FS_DEFINED
    else none

/-- The behaviors block as open reads it, in source order with the source's
early failure exits: max_depth, recurse_direction, recurse,
recurse_file_system (oval_fts.c lines 209-293). -/
def parseBehaviors (b : BehaviorsDef) : Option (Int × Int × Nat × Int) :=
  match b.max_depth with
  | none => none
  | some smd =>
    match b.recurse_direction with
    | none => none
    | some sd =>
      match parseDirection sd with
      | none => none
      | some dir =>
        match parseRecurse b.recurse with
        | none => none
        | some rec =>
          match parseFilesystem b.recurse_file_system with
          | none => none
          | some fs => some (strtol10 smd, dir, rec, fs)

/-- The operation code open extracts from the path (or else filepath) entity,
defaulting to EQUALS when the attribute is absent (oval_fts.c lines 184-194). -/
def openOp (path filepath : Option EntityDef) : Nat :=
  match path with
  | some p => p.operation.getD OVAL_OPERATION_EQUALS
  | none =>
    match filepath with
    | some fp => fp.operation.getD OVAL_OPERATION_EQUALS
    | none => OVAL_OPERATION_EQUALS

/-- The literal string open extracts from the path (or else filepath) entity;
"" stands in on paths where open fails before using it. -/
def openLiteral (path filepath : Option EntityDef) : String :=
  match path with
  | some p => match p.strval with | .val s => s | _ => ""
  | none =>
    match filepath with
    | some fp => match fp.strval with | .val s => s | _ => ""
    | none => ""

/-- Filename extraction of open: `none` on extraction error, else whether the
filename is nil (a NULL filename entity extracts as nil). -/
def filenameStr : Option EntityDef → Option Bool
  | none => some true
  | some f =>
    match f.strval with
    | .err => none
    | .nil => some true
    | .val _ => some false

/-- Mode-specific data carried from the front half of open to the common
tail: path mode carries the entity ids and parsed behaviors, filepath mode
its entity id. -/
inductive OpenMode where
  | pmode (spEid : Nat) (fnEid : Option Nat) (md : Int) (dir : Int) (rcrs : Nat) (fs : Int)
  | fpmode (fpEid : Nat)

/-- Final stage of open (oval_fts.c lines 355-376): device-set creation for
local path-mode handles (with the source's leak of everything acquired so
far when `fsdev_init` fails), then entity references and behavior fields. -/
def openFinish (env : SysEnv) (ofts : OVAL_FTS) (m : OpenMode) : OpenOutcome :=
  match m with
  | .pmode sp fn md dir rcrs fs =>
    if fs = OVAL_RECURSE_FS_LOCAL ∧ env.fsdev_init_ok = false then
      .fail ([Res.ofts_struct, Res.fts_handle, Res.paths_vec]
             ++ (if ofts.ofts_path_regex.isSome then [Res.regex, Res.regex_study] else []))
    else
      .ok { ofts with
            localdevs := if fs = OVAL_RECURSE_FS_LOCAL then some env.devs else none
            ofts_spath := some sp
            ofts_sfilename := fn
            max_depth := md
            direction := dir
            recurse := rcrs
            filesystem := fs }
  | .fpmode fp => .ok { ofts with ofts_sfilepath := some fp }

/-- Common tail of open (oval_fts.c lines 298-353): root construction,
OVAL_FTS_new (whose NULL return the source then dereferences: `crash`), and
the PATTERN_MATCH regex block with its prunability decision.  The
`junk_recurse` argument models the recurse field OVAL_FTS_new leaves
uninitialized.  A pcre_compile failure returns NULL leaking everything
acquired so far, as the source does. -/
def openCommon (env : SysEnv) (pc : PcreEnv) (junk_recurse : Nat)
    (cstr_path : String) (path_op : Nat) (m : OpenMode) : OpenOutcome :=
  if env.fts_open_ok = false then
    .crash [Res.paths_vec]
  else
    let ofts0 : OVAL_FTS :=
      { ofts_st_path := [if path_op = OVAL_OPERATION_EQUALS then cstr_path else "/"]
        ofts_st_path_count := 1
        ofts_st_path_index := 0
        ofts_spath := none
        ofts_sfilename := none
        ofts_sfilepath := none
        ofts_path_regex := none
        ofts_path_op := path_op
        max_depth := -1
        direction := -1
        recurse := junk_recurse
        filesystem := -1
        localdevs := none }
    if path_op = OVAL_OPERATION_PATTERN_MATCH then
      if pc.compiles cstr_path = false then
        .fail [Res.ofts_struct, Res.fts_handle, Res.paths_vec]
      else if (pc.firstbyte cstr_path = 47 ∨ pc.firstbyte cstr_path = -2)
          ∧ pc.probeRet cstr_path ≠ PCRE_ERROR_BADPARTIAL then
        openFinish env { ofts0 with ofts_path_regex := some cstr_path } m
      else
        openFinish env ofts0 m
    else
      openFinish env ofts0 m

/-- Translation of `oval_fts_open` (oval_fts.c lines 160-377): operation
extraction, the mode split on path versus filepath, behaviors parsing with
early NULL returns, and the common tail. -/
def oval_fts_open (env : SysEnv) (pc : PcreEnv) (junk_recurse : Nat)
    (path filename filepath : Option EntityDef) (behaviors : BehaviorsDef) :
    OpenOutcome :=
  let path_op := openOp path filepath
  match path with
  | some p =>
    match p.strval with
    | .err => .fail []
    | .nil => .fail []
    | .val cstr_path =>
      match filenameStr filename with
      | none => .fail []
      | some nilfn =>
        match parseBehaviors behaviors with
        | none => .fail []
        | some (md, dir, rcrs, fs) =>
          openCommon env pc junk_recurse cstr_path path_op
            (OpenMode.pmode p.eid
              (if nilfn then none else (filename.map EntityDef.eid)) md dir rcrs fs)
  | none =>
    match filepath with
    | some fp =>
      match fp.strval with
      | .err => .fail []
      | .nil => .fail []
      | .val cstr_path => openCommon env pc junk_recurse cstr_path path_op (OpenMode.fpmode fp.eid)
    | none => .fail []

/-! Concrete instances: environments, handles, driver entries and forests
used to evaluate the model on closed inputs. -/

/-- Entity matcher that accepts every comparison. -/
def cmpAll : Nat → String → OvalResult := fun _ _ => .tru

/-- Entity matcher accepting only the filename entity (reference id 1);
the path entity (reference id 0) never compares TRUE. -/
def cmpFileOnly : Nat → String → OvalResult := fun e _ => if e = 1 then .tru else .fls

/-- A pcre_exec stand-in for handles that retain no pruning regex (never
consulted there). -/
def pcreAny : String → Nat → Int := fun _ _ => 1

/-- A device-set snapshot containing no device at all. -/
def devsNone : Fsdev := ⟨fun _ => false, fun _ => false⟩

/-- OS environment in which fts_open and fsdev_init both succeed. -/
def envOK : SysEnv := ⟨true, true, devsNone⟩

/-- PCRE environment: everything compiles, first byte is a literal '/',
the partial probe reports a partial match. -/
def pcOK : PcreEnv := ⟨fun _ => true, fun _ => 47, fun _ => PCRE_ERROR_PARTIAL⟩

/-- PCRE environment: everything compiles and is caret-anchored. -/
def pcAnchored : PcreEnv := ⟨fun _ => true, fun _ => -2, fun _ => PCRE_ERROR_PARTIAL⟩

/-- PCRE environment in which compilation fails. -/
def pcBad : PcreEnv := ⟨fun _ => false, fun _ => 0, fun _ => 0⟩

/-- Placeholder handle for projecting out of a failed open. -/
def dfltOFTS : OVAL_FTS :=
  ⟨[], 0, 0, none, none, none, none, 0, -1, -1, 0, -1, none⟩

/-- The handle of a successful open outcome. -/
def oftsOf : OpenOutcome → OVAL_FTS
  | .ok o => o
  | _ => dfltOFTS

/-- Handle in path+filename mode: operation EQUALS on the path entity
(reference id 0), filename entity present (reference id 1), direction
"none", no pruning regex. -/
def oftsEqNone : OVAL_FTS :=
  ⟨["/a"], 1, 0, some 0, some 1, none, none, OVAL_OPERATION_EQUALS, -1,
   OVAL_RECURSE_DIRECTION_NONE, OVAL_RECURSE_SYMLINKS_AND_DIRS,
   OVAL_RECURSE_FS_ALL, none⟩

/-- Handle in path-only mode (no filename entity), operation EQUALS,
direction "none". -/
def oftsPathOnly : OVAL_FTS :=
  ⟨["/a"], 1, 0, some 0, none, none, none, OVAL_OPERATION_EQUALS, -1,
   OVAL_RECURSE_DIRECTION_NONE, OVAL_RECURSE_SYMLINKS_AND_DIRS,
   OVAL_RECURSE_FS_ALL, none⟩

/-- Handle in filepath mode (filepath entity reference id 2), as open leaves
it: behavior fields -1, no device set. -/
def oftsFp : OVAL_FTS :=
  ⟨["/"], 1, 0, none, none, some 2, none, OVAL_OPERATION_PATTERN_MATCH, -1,
   -1, OVAL_RECURSE_SYMLINKS_AND_DIRS, -1, none⟩

/-- A file entry two levels below the root. -/
def entC1 : FTSENT := ⟨"/a/c/d.txt", 10, "d.txt", 5, 2, .F, none⟩

/-- A file entry one level below the root. -/
def entW1 : FTSENT := ⟨"/e/f.txt", 8, "f.txt", 5, 1, .F, none⟩

/-- A symlink entry as first presented by the driver. -/
def entSL : FTSENT := ⟨"/d/link", 7, "link", 4, 1, .SL, none⟩

/-- A file entry directly below a root directory. -/
def entW2 : FTSENT := ⟨"/a/b.txt", 8, "b.txt", 5, 1, .F, none⟩

/-- Entity matcher for the pattern "^/a/.*": the path entity (id 0)
compares TRUE exactly on strings starting with "/a/", the filename entity
(id 1) on everything. -/
def cmpC3 : Nat → String → OvalResult := fun e s =>
  if e = 0 then (if cTake s 3 = "/a/" then .tru else .fls) else .tru

/-- pcre_exec of the compiled pattern "^/a/.*" with PCRE_PARTIAL on a
length-limited subject: "/" and "/a" match partially, subjects below "/a/"
match fully, everything else fails. -/
def pcreC3 : String → Nat → Int := fun s n =>
  let t := cTake s n
  if t = "/" ∨ t = "/a" then PCRE_ERROR_PARTIAL
  else if cTake t 3 = "/a/" then 1
  else PCRE_ERROR_NOMATCH

/-- Handle for a path PATTERN_MATCH walk with a retained pruning regex,
filename entity present, direction "down", max_depth 0. -/
def oftsC3 : OVAL_FTS :=
  ⟨["/"], 1, 0, some 0, some 1, none, some "^/a/.*", OVAL_OPERATION_PATTERN_MATCH,
   0, OVAL_RECURSE_DIRECTION_DOWN, OVAL_RECURSE_SYMLINKS_AND_DIRS,
   OVAL_RECURSE_FS_ALL, none⟩

/-- Forest with a file three levels below the starting root "/". -/
def treeC3 : FSTree :=
  .node ⟨"/", 1, "/", 1, 0, .D, none⟩ none
    [.node ⟨"/a", 2, "a", 1, 1, .D, none⟩ none
      [.node ⟨"/a/b", 4, "b", 1, 2, .D, none⟩ none
        [.node ⟨"/a/b/f", 6, "f", 1, 3, .F, none⟩ none []]]]

/-- Path-only EQUALS handle with recurse_file_system "local" and an empty
device-set snapshot, direction "down". -/
def oftsLoc : OVAL_FTS :=
  ⟨["/a"], 1, 0, some 0, none, none, none, OVAL_OPERATION_EQUALS, -1,
   OVAL_RECURSE_DIRECTION_DOWN, OVAL_RECURSE_SYMLINKS_AND_DIRS,
   OVAL_RECURSE_FS_LOCAL, some devsNone⟩

/-- As `oftsLoc` with a filename entity present. -/
def oftsLocFn : OVAL_FTS :=
  ⟨["/a"], 1, 0, some 0, some 1, none, none, OVAL_OPERATION_EQUALS, -1,
   OVAL_RECURSE_DIRECTION_DOWN, OVAL_RECURSE_SYMLINKS_AND_DIRS,
   OVAL_RECURSE_FS_LOCAL, some devsNone⟩

/-- Root directory entry on device 5 (absent from the snapshot). -/
def entC5 : FTSENT := ⟨"/a", 2, "a", 1, 0, .D, some 5⟩

/-- Child directory of `entC5`, same device. -/
def entC5c : FTSENT := ⟨"/a/b", 4, "b", 1, 1, .D, some 5⟩

/-- A non-root directory entry on device 9 (absent from the snapshot). -/
def entW5 : FTSENT := ⟨"/m", 2, "m", 1, 1, .D, some 9⟩

/-- A file below `entW5`. -/
def entW5c : FTSENT := ⟨"/m/x", 4, "x", 1, 2, .F, some 9⟩

/-- Forest whose root directory holds two files. -/
def treeC6 : FSTree :=
  .node ⟨"/a", 2, "a", 1, 0, .D, none⟩ none
    [.node ⟨"/a/b.txt", 8, "b.txt", 5, 1, .F, none⟩ none [],
     .node ⟨"/a/c.txt", 8, "c.txt", 5, 1, .F, none⟩ none []]

/-- Path entity with operation EQUALS and literal "/a". -/
def pathEntEq : EntityDef := ⟨0, some OVAL_OPERATION_EQUALS, .val "/a"⟩

/-- Path entity with operation PATTERN_MATCH and pattern "^/etc/.*". -/
def pathEntPat : EntityDef := ⟨0, some OVAL_OPERATION_PATTERN_MATCH, .val "^/etc/.*"⟩

/-- Path entity with operation PATTERN_MATCH and a malformed pattern. -/
def pathEntBad : EntityDef := ⟨0, some OVAL_OPERATION_PATTERN_MATCH, .val "[bad"⟩

/-- Filepath entity with no operation attribute (defaults to EQUALS). -/
def fpEntW : EntityDef := ⟨2, none, .val "/etc/passwd"⟩

/-- A plain valid behaviors record: max_depth "1", direction "down". -/
def behPlain : BehaviorsDef := ⟨some "1", some "down", none, none⟩

/-- A behaviors record that path mode would reject (unknown direction). -/
def behOther : BehaviorsDef := ⟨none, some "sideways", none, none⟩

/-! Helper lemmas. -/

theorem runLoop_nil (cmp : Nat → String → OvalResult) (pcre : String → Nat → Int)
    (ofts : OVAL_FTS) (fuel : Nat) : runLoop cmp pcre ofts fuel [] = ([], false) := by
  cases fuel <;> rfl

theorem strdata_append (a b : String) : (a ++ b).data = a.data ++ b.data := rfl

theorem pathlen_from_ftse_eq (p n : Nat) :
    pathlen_from_ftse p n
      = if n + 1 < p then p - n - 1 else if n < p then p - n else p := by
  simp only [pathlen_from_ftse]
  split_ifs <;> omega

/-- Claim C2: for every entry built in path+filename mode, the path field is
the first pathlen characters of the driver's full path, where pathlen is
fts_pathlen − fts_namelen − 1 if fts_pathlen > fts_namelen + 1, else
fts_pathlen − fts_namelen if fts_pathlen > fts_namelen, else fts_pathlen;
the file field is the driver's basename; and joining path and file with a
single slash reconstructs the driver's full path. -/
theorem path_name_split_reconstructs (ofts : OVAL_FTS) (ent : FTSENT) (d : String)
    (hmode : ofts.ofts_sfilename.isSome = true)
    (hplen : ent.fts_pathlen = ent.fts_path.length)
    (hnlen : ent.fts_namelen = ent.fts_name.length)
    (hshape : ent.fts_path = d ++ "/" ++ ent.fts_name)
    (hd : d.data.getLast? ≠ some '/') :
    (OVAL_FTSENT_new ofts ent).path
        = cTake ent.fts_path
            (if ent.fts_namelen + 1 < ent.fts_pathlen then
               ent.fts_pathlen - ent.fts_namelen - 1
             else if ent.fts_namelen < ent.fts_pathlen then
               ent.fts_pathlen - ent.fts_namelen
             else ent.fts_pathlen)
      ∧ (OVAL_FTSENT_new ofts ent).file = some ent.fts_name
      ∧ joinPath (OVAL_FTSENT_new ofts ent).path ent.fts_name = ent.fts_path := by
  have h1 : (OVAL_FTSENT_new ofts ent).path
      = cTake ent.fts_path (pathlen_from_ftse ent.fts_pathlen ent.fts_namelen) := by
    simp [OVAL_FTSENT_new, hmode]
  have h2 : (OVAL_FTSENT_new ofts ent).file = some ent.fts_name := by
    simp [OVAL_FTSENT_new, hmode]
  have hpdata : ent.fts_path.data = d.data ++ '/' :: ent.fts_name.data := by
    rw [hshape, strdata_append, strdata_append]
    simp
  have hplen2 : ent.fts_pathlen = d.data.length + 1 + ent.fts_name.data.length := by
    rw [hplen]
    show ent.fts_path.data.length = _
    rw [hpdata]
    simp
    omega
  have hnlen2 : ent.fts_namelen = ent.fts_name.data.length := hnlen
  refine ⟨by rw [h1, pathlen_from_ftse_eq], h2, ?_⟩
  rw [h1]
  rcases hcase : d.data with _ | ⟨c, cs⟩
  · have hk : pathlen_from_ftse ent.fts_pathlen ent.fts_namelen = 1 := by
      rw [pathlen_from_ftse_eq, hplen2, hnlen2, hcase]
      simp
      omega
    rw [hk]
    have hct : cTake ent.fts_path 1 = String.mk ['/'] := by
      apply String.ext
      show ent.fts_path.data.take 1 = ['/']
      rw [hpdata, hcase]
      rfl
    rw [hct]
    show joinPath (String.mk ['/']) ent.fts_name = ent.fts_path
    rw [joinPath]
    rw [if_pos (by rfl)]
    apply String.ext
    rw [strdata_append, hpdata, hcase]
    rfl
  · have hlenpos : 0 < d.data.length := by rw [hcase]; simp
    have hk : pathlen_from_ftse ent.fts_pathlen ent.fts_namelen = d.data.length := by
      rw [pathlen_from_ftse_eq, hplen2, hnlen2]
      split_ifs <;> omega
    rw [hk]
    have hct : cTake ent.fts_path d.data.length = d := by
      apply String.ext
      show ent.fts_path.data.take d.data.length = d.data
      rw [hpdata]
      exact List.take_left d.data ('/' :: ent.fts_name.data)
    rw [hct, joinPath, if_neg hd]
    exact hshape.symm

/-- Claim C2 witness: the split of the concrete entry "/a/b.txt" under a
path+filename handle. -/
theorem path_name_split_reconstructs_witness :
    (OVAL_FTSENT_new oftsEqNone entW2).path
        = cTake entW2.fts_path
            (if entW2.fts_namelen + 1 < entW2.fts_pathlen then
               entW2.fts_pathlen - entW2.fts_namelen - 1
             else if entW2.fts_namelen < entW2.fts_pathlen then
               entW2.fts_pathlen - entW2.fts_namelen
             else entW2.fts_pathlen)
      ∧ (OVAL_FTSENT_new oftsEqNone entW2).file = some entW2.fts_name
      ∧ joinPath (OVAL_FTSENT_new oftsEqNone entW2).path entW2.fts_name = entW2.fts_path :=
  path_name_split_reconstructs oftsEqNone entW2 "/a" (by decide) (by decide) (by decide)
    (by decide) (by decide)

/-- Claim C4: the read loop never yields a record at a driver entry whose
info tag is SL (the symlink itself); only the resolved target, re-presented
after a FOLLOW, can be yielded. -/
theorem symlink_entry_never_yielded (cmp : Nat → String → OvalResult)
    (pcre : String → Nat → Int) (ofts : OVAL_FTS) (ent : FTSENT)
    (h : ent.fts_info = .SL) :
    (processEntry cmp pcre ofts ent).yieldOpt = none := by
  obtain ⟨p, pl, nm, nl, lv, info, stt⟩ := ent
  simp only at h
  subst h
  simp only [processEntry]
  split_ifs <;> simp [StepResult.yieldOpt, yieldOf]

/-- Claim C4 witness: a concrete SL entry yields nothing. -/
theorem symlink_entry_never_yielded_witness :
    (processEntry cmpAll pcreAny oftsFp entSL).yieldOpt = none :=
  symlink_entry_never_yielded cmpAll pcreAny oftsFp entSL rfl


/-- A record can only come out of a loop iteration through the candidate
evaluation. -/
theorem processEntry_yield_some {cmp : Nat → String → OvalResult}
    {pcre : String → Nat → Int} {ofts : OVAL_FTS} {ent : FTSENT}
    {oe : OVAL_FTSENT} {st : Steer}
    (h : processEntry cmp pcre ofts ent = .cont (some oe) st) :
    yieldOf cmp ofts ent = some oe := by
  obtain ⟨p, pl, nm, nl, lv, info, stt⟩ := ent
  cases info <;> simp only [processEntry] at h <;>
    (try split_ifs at h) <;> simp_all

/-- Claim C1 (amended): for every entry the read loop yields, every entity
comparison that gated the yield returned TRUE against its designated
substring — in filepath mode the full path against sfilepath; in
path+filename mode the basename against sfilename and, unless the path
operation is EQUALS (where the source forces the result), the directory
portion against spath; in path-only mode, unless the path operation is
EQUALS, the full path against spath. -/
theorem yielded_entry_comparisons
    (cmp : Nat → String → OvalResult) (pcre : String → Nat → Int)
    (ofts : OVAL_FTS) (ent : FTSENT) (oe : OVAL_FTSENT) (st : Steer)
    (h : processEntry cmp pcre ofts ent = .cont (some oe) st) :
    (∀ fpid, ofts.ofts_sfilepath = some fpid → cmp fpid ent.fts_path = .tru)
    ∧ (ofts.ofts_sfilepath = none → ∀ fnid, ofts.ofts_sfilename = some fnid →
        cmp fnid ent.fts_name = .tru
        ∧ (ofts.ofts_path_op ≠ OVAL_OPERATION_EQUALS →
            cmpOpt cmp ofts.ofts_spath
              (cTake ent.fts_path (pathlen_from_ftse ent.fts_pathlen ent.fts_namelen))
              = .tru))
    ∧ (ofts.ofts_sfilepath = none → ofts.ofts_sfilename = none →
        ofts.ofts_path_op ≠ OVAL_OPERATION_EQUALS →
        cmpOpt cmp ofts.ofts_spath ent.fts_path = .tru) := by
  have hy := processEntry_yield_some h
  by_cases hsl : ent.fts_info = .SL
  · exfalso
    simp [yieldOf, hsl] at hy
  refine ⟨?_, ?_, ?_⟩
  · intro fpid hfpid
    by_cases hcmp : cmp fpid ent.fts_path = .tru
    · exact hcmp
    · exfalso
      simp [yieldOf, hsl, hfpid, cmpOpt, hcmp] at hy
  · intro hfpn fnid hfn
    by_cases hD : ent.fts_info = .D
    · exfalso
      simp [yieldOf, hsl, hfpn, hfn, hD] at hy
    · by_cases hname : cmp fnid ent.fts_name = .tru
      · by_cases hop : ofts.ofts_path_op = OVAL_OPERATION_EQUALS
        · exact ⟨hname, fun hop2 => absurd hop hop2⟩
        · by_cases hm1 : cmpOpt cmp ofts.ofts_spath
              (cTake ent.fts_path (pathlen_from_ftse ent.fts_pathlen ent.fts_namelen)) = .tru
          · exact ⟨hname, fun _ => hm1⟩
          · exfalso
            simp [yieldOf, hsl, hfpn, hfn, hD, hop, hm1, hname] at hy
      · exfalso
        by_cases hop : ofts.ofts_path_op = OVAL_OPERATION_EQUALS <;>
          by_cases hm1 : cmpOpt cmp ofts.ofts_spath
              (cTake ent.fts_path (pathlen_from_ftse ent.fts_pathlen ent.fts_namelen)) = .tru <;>
            simp [yieldOf, hsl, hfpn, hfn, hD, hop, hm1, hname] at hy <;>
            simp [cmpOpt, hname] at hy
  · intro hfpn hfnn hop
    by_cases hD : ent.fts_info = .D
    · by_cases hm1 : cmpOpt cmp ofts.ofts_spath ent.fts_path = .tru
      · exact hm1
      · exfalso
        simp [yieldOf, hsl, hfpn, hfnn, hD, hop, hm1] at hy
    · exfalso
      simp [yieldOf, hsl, hfpn, hfnn, hD] at hy

/-- Claim C1 counterexample: under the EQUALS path operation the read loop
yields the file "/a/c/d.txt" although the configured path entity compares
FALSE (not TRUE) against the designated directory portion "/a/c" — the
source forces the directory comparison to TRUE (the "repulsive hack"). -/
theorem equals_hack_counterexample :
    processEntry cmpFileOnly pcreAny oftsEqNone entC1
        = .cont (some ⟨"/a/c", 4, some "d.txt", 5⟩) .skip
    ∧ cmpOpt cmpFileOnly oftsEqNone.ofts_spath
        (cTake entC1.fts_path (pathlen_from_ftse entC1.fts_pathlen entC1.fts_namelen)) = .fls
    ∧ cTake entC1.fts_path (pathlen_from_ftse entC1.fts_pathlen entC1.fts_namelen) = "/a/c" := by
  exact ⟨by decide, by decide, by decide⟩

/-- Claim C1 witness: a concrete filepath-mode yield; the filepath entity of
the handle compared TRUE against the yielded entry's full path. -/
theorem yielded_entry_comparisons_witness :
    cmpAll 2 entW1.fts_path = OvalResult.tru := by
  have hres := yielded_entry_comparisons cmpAll pcreAny oftsFp entW1
    ⟨"/e", 2, some "f.txt", 5⟩ .go rfl
  exact hres.1 2 rfl

/-- Option.toList holds at most one element. -/
theorem toList_length_le_one (y : Option OVAL_FTSENT) : y.toList.length ≤ 1 := by
  cases y <;> simp

/-- Claim C3: with max_depth 0 and direction down, the walk of the concrete
pattern-match configuration still yields the file "/a/b/f", three levels
below the starting root — a PARTIAL pruning result makes the loop body skip
the steering switch, so the depth check never runs (the source's own todo
comment at oval_fts.c line 388 records that path pattern match with
recursion does not work). -/
theorem pattern_recursion_depth_overrun :
    oftsC3.max_depth = 0
    ∧ oftsC3.direction = OVAL_RECURSE_DIRECTION_DOWN
    ∧ runLoop cmpC3 pcreC3 oftsC3 20 [treeC3] = ([⟨"/a/b", 4, some "f", 1⟩], false) := by
  exact ⟨rfl, rfl, by decide⟩

/-- Claim C5 counterexample: with recurse_file_system local and an empty
device snapshot, the walk still yields the matching root directory "/a"
although it is on no device of the set — the device check gates descent
only, and it runs after the candidate evaluation of the same entry. -/
theorem nonlocal_entry_yielded_counterexample :
    runLoop cmpAll pcreAny oftsLoc 10 [FSTree.node entC5 none [FSTree.node entC5c none []]]
      = ([⟨"/a", 2, none, -1⟩], false)
    ∧ OVAL_FTS_localp oftsLoc (some entC5.fts_path) entC5.fts_statp = false := by
  exact ⟨by decide, by decide⟩

/-- Claim C5 (amended): with recurse_file_system local, direction down and
no pruning regex, the walker never descends below a directory or symlink
that is not on a device of the snapshot (a level-0 root with a filename
entity excepted): the subtree below such an entry contributes nothing
beyond the possible record for the entry itself, which is not
device-filtered. -/
theorem local_fs_blocks_descent
    (cmp : Nat → String → OvalResult) (pcre : String → Nat → Int) (ofts : OVAL_FTS)
    (ent : FTSENT) (fent : Option FTSENT) (cs rest : List FSTree) (fuel : Nat)
    (hdir : ofts.direction = OVAL_RECURSE_DIRECTION_DOWN)
    (hfs : ofts.filesystem = OVAL_RECURSE_FS_LOCAL)
    (hrx : ofts.ofts_path_regex = none)
    (hinfo : ent.fts_info = .D ∨ ent.fts_info = .SL)
    (hroot : ¬(ent.fts_level = 0 ∧ ofts.ofts_sfilename.isSome))
    (hdev : OVAL_FTS_localp ofts (some ent.fts_path) ent.fts_statp = false) :
    runLoop cmp pcre ofts (fuel + 1) (FSTree.node ent fent cs :: rest)
      = ((yieldOf cmp ofts ent).toList ++ (runLoop cmp pcre ofts fuel rest).1,
         (runLoop cmp pcre ofts fuel rest).2) := by
  have hst : steerEntry ofts ent = .skip := by
    rcases hinfo with hD | hSL
    · simp [steerEntry, hdir, hD, hroot]
      rw [if_neg (show OVAL_RECURSE_DIRECTION_DOWN ≠ OVAL_RECURSE_DIRECTION_NONE by decide)]
      split_ifs with h1 h2 h3 <;> first | rfl | (exact absurd ⟨hfs, hdev⟩ h3)
    · simp [steerEntry, hdir, hSL, hroot]
      rw [if_neg (show OVAL_RECURSE_DIRECTION_DOWN ≠ OVAL_RECURSE_DIRECTION_NONE by decide)]
      split_ifs with h1 h2 h3 <;> first | rfl | (exact absurd ⟨hfs, hdev⟩ h3)
  have hpe : processEntry cmp pcre ofts ent
      = .cont (yieldOf cmp ofts ent) (steerEntry ofts ent) := by
    obtain ⟨p, pl, nm, nl, lv, info, stt⟩ := ent
    rcases hinfo with hD | hSL <;> simp_all [processEntry]
  simp only [runLoop, hpe, hst]
  simp

/-- Claim C5 witness: a non-root directory on a device outside the snapshot;
its subtree contributes only the entry for the directory itself. -/
theorem local_fs_blocks_descent_witness :
    runLoop cmpAll pcreAny oftsLocFn (3 + 1) [FSTree.node entW5 none [FSTree.node entW5c none []]]
      = ((yieldOf cmpAll oftsLocFn entW5).toList
           ++ (runLoop cmpAll pcreAny oftsLocFn 3 []).1,
         (runLoop cmpAll pcreAny oftsLocFn 3 []).2) :=
  local_fs_blocks_descent cmpAll pcreAny oftsLocFn entW5 none [FSTree.node entW5c none []] [] 3
    rfl rfl rfl (Or.inl rfl) (by decide) (by decide)

/-- Claim C6 counterexample: with recurse_direction none and path operation
EQUALS but a filename entity matching two files of the root directory, the
walk emits two records for the single starting root. -/
theorem direction_none_multiple_entries_counterexample :
    runLoop cmpFileOnly pcreAny oftsEqNone 10 [treeC6]
      = ([⟨"/a", 2, some "b.txt", 5⟩, ⟨"/a", 2, some "c.txt", 5⟩], false)
    ∧ 1 < (runLoop cmpFileOnly pcreAny oftsEqNone 10 [treeC6]).1.length := by
  exact ⟨by decide, by decide⟩

/-- Claim C6 (amended): with recurse_direction none, path operation EQUALS
and no filename or filepath entity (the object's target is the directory
itself), at most one record per starting root is emitted: the root entry is
skipped at once, so only the root itself can match. -/
theorem direction_none_pathonly_at_most_one
    (cmp : Nat → String → OvalResult) (pcre : String → Nat → Int) (ofts : OVAL_FTS)
    (hdir : ofts.direction = OVAL_RECURSE_DIRECTION_NONE)
    (hop : ofts.ofts_path_op = OVAL_OPERATION_EQUALS)
    (hfn : ofts.ofts_sfilename = none)
    (hfp : ofts.ofts_sfilepath = none)
    (hrx : ofts.ofts_path_regex = none)
    (fuel : Nat) (t : FSTree) :
    (runLoop cmp pcre ofts fuel [t]).1.length ≤ 1 := by
  cases fuel with
  | zero => simp [runLoop]
  | succ f =>
    obtain ⟨ent, fent, cs⟩ := t
    have hst : ∀ e : FTSENT, steerEntry ofts e = .skip := by
      intro e
      simp [steerEntry, hdir, hop, hfn, hfp]
    obtain ⟨p, pl, nm, nl, lv, info, stt⟩ := ent
    cases info <;>
      simp [runLoop, processEntry, hrx, hst, runLoop_nil] <;>
      exact toList_length_le_one _

/-- Claim C6 witness: the bound instantiated at a concrete path-only handle
and root. -/
theorem direction_none_pathonly_at_most_one_witness :
    (runLoop cmpAll pcreAny oftsPathOnly 5 [treeC6]).1.length ≤ 1 :=
  direction_none_pathonly_at_most_one cmpAll pcreAny oftsPathOnly rfl rfl rfl rfl rfl 5 treeC6

/-- The final stage of open preserves the root vector and the regex decided
earlier. -/
theorem openFinish_ok_inv {env : SysEnv} {o : OVAL_FTS} {m : OpenMode} {ofts : OVAL_FTS}
    (h : openFinish env o m = .ok ofts) :
    ofts.ofts_st_path = o.ofts_st_path
    ∧ ofts.ofts_st_path_count = o.ofts_st_path_count
    ∧ ofts.ofts_path_regex = o.ofts_path_regex := by
  cases m <;> simp only [openFinish] at h <;> (try split_ifs at h) <;> cases h <;> simp

/-- In filepath mode the final stage only installs the filepath reference. -/
theorem openFinish_fp_inv {env : SysEnv} {o : OVAL_FTS} {fp : Nat} {ofts : OVAL_FTS}
    (h : openFinish env o (OpenMode.fpmode fp) = .ok ofts) :
    ofts = { o with ofts_sfilepath := some fp } := by
  simp only [openFinish] at h
  cases h
  rfl

/-- Inversion of the common tail of open: a successful open holds exactly
one root (the literal under EQUALS, "/" otherwise) and retains the regex
exactly for a prunable PATTERN_MATCH. -/
theorem openCommon_ok_inv {env : SysEnv} {pc : PcreEnv} {junk : Nat}
    {cstr : String} {op : Nat} {m : OpenMode} {ofts : OVAL_FTS}
    (h : openCommon env pc junk cstr op m = .ok ofts) :
    ofts.ofts_st_path = [if op = OVAL_OPERATION_EQUALS then cstr else "/"]
    ∧ ofts.ofts_st_path_count = 1
    ∧ ofts.ofts_path_regex
        = (if op = OVAL_OPERATION_PATTERN_MATCH
              ∧ (pc.firstbyte cstr = 47 ∨ pc.firstbyte cstr = -2)
              ∧ pc.probeRet cstr ≠ PCRE_ERROR_BADPARTIAL
           then some cstr else none) := by
  simp only [openCommon] at h
  by_cases hfts : env.fts_open_ok = false
  · rw [if_pos hfts] at h
    cases h
  · rw [if_neg hfts] at h
    by_cases hpat : op = OVAL_OPERATION_PATTERN_MATCH
    · rw [if_pos hpat] at h
      by_cases hcomp : pc.compiles cstr = false
      · rw [if_pos hcomp] at h
        cases h
      · rw [if_neg hcomp] at h
        by_cases hkeep : (pc.firstbyte cstr = 47 ∨ pc.firstbyte cstr = -2)
            ∧ pc.probeRet cstr ≠ PCRE_ERROR_BADPARTIAL
        · rw [if_pos hkeep] at h
          obtain ⟨e1, e2, e3⟩ := openFinish_ok_inv h
          exact ⟨e1, e2, by rw [if_pos ⟨hpat, hkeep⟩]; exact e3⟩
        · rw [if_neg hkeep] at h
          obtain ⟨e1, e2, e3⟩ := openFinish_ok_inv h
          exact ⟨e1, e2, by rw [if_neg (fun hc => hkeep hc.2)]; exact e3⟩
    · rw [if_neg hpat] at h
      obtain ⟨e1, e2, e3⟩ := openFinish_ok_inv h
      exact ⟨e1, e2, by rw [if_neg (fun hc => hpat hc.1)]; exact e3⟩

/-- Inversion of the common tail in filepath mode: the behavior fields stay
at -1 and no device set is created. -/
theorem openCommon_fp_inv {env : SysEnv} {pc : PcreEnv} {junk : Nat}
    {cstr : String} {op : Nat} {fp : Nat} {ofts : OVAL_FTS}
    (h : openCommon env pc junk cstr op (OpenMode.fpmode fp) = .ok ofts) :
    ofts.max_depth = -1 ∧ ofts.direction = -1 ∧ ofts.filesystem = -1
    ∧ ofts.localdevs = none ∧ ofts.ofts_sfilepath = some fp := by
  simp only [openCommon] at h
  by_cases hfts : env.fts_open_ok = false
  · rw [if_pos hfts] at h
    cases h
  · rw [if_neg hfts] at h
    by_cases hpat : op = OVAL_OPERATION_PATTERN_MATCH
    · rw [if_pos hpat] at h
      by_cases hcomp : pc.compiles cstr = false
      · rw [if_pos hcomp] at h
        cases h
      · rw [if_neg hcomp] at h
        by_cases hkeep : (pc.firstbyte cstr = 47 ∨ pc.firstbyte cstr = -2)
            ∧ pc.probeRet cstr ≠ PCRE_ERROR_BADPARTIAL
        · rw [if_pos hkeep] at h
          rw [openFinish_fp_inv h]
          exact ⟨rfl, rfl, rfl, rfl, rfl⟩
        · rw [if_neg hkeep] at h
          rw [openFinish_fp_inv h]
          exact ⟨rfl, rfl, rfl, rfl, rfl⟩
    · rw [if_neg hpat] at h
      rw [openFinish_fp_inv h]
      exact ⟨rfl, rfl, rfl, rfl, rfl⟩

/-- Claim C7: a successful open constructs exactly one starting root — the
literal path (or filepath) string under the EQUALS operation, "/" under
every other operation. -/
theorem open_single_starting_root
    {env : SysEnv} {pc : PcreEnv} {junk : Nat}
    {path filename filepath : Option EntityDef} {behaviors : BehaviorsDef}
    {ofts : OVAL_FTS}
    (h : oval_fts_open env pc junk path filename filepath behaviors = .ok ofts) :
    ofts.ofts_st_path
        = [if openOp path filepath = OVAL_OPERATION_EQUALS
           then openLiteral path filepath else "/"]
    ∧ ofts.ofts_st_path_count = 1 := by
  cases path with
  | some p =>
    cases hs : p.strval with
    | err => simp [oval_fts_open, hs] at h
    | nil => simp [oval_fts_open, hs] at h
    | val s =>
      simp only [oval_fts_open, hs] at h
      cases hf : filenameStr filename with
      | none => rw [hf] at h; cases h
      | some nilfn =>
        rw [hf] at h
        cases hb : parseBehaviors behaviors with
        | none => rw [hb] at h; cases h
        | some quad =>
          rw [hb] at h
          obtain ⟨md, dir, rcrs, fs⟩ := quad
          obtain ⟨e1, e2, _⟩ := openCommon_ok_inv h
          exact ⟨by rw [e1]; simp [openLiteral, hs], e2⟩
  | none =>
    cases filepath with
    | none => simp [oval_fts_open] at h
    | some fp =>
      cases hs : fp.strval with
      | err => simp [oval_fts_open, hs] at h
      | nil => simp [oval_fts_open, hs] at h
      | val s =>
        simp only [oval_fts_open, hs] at h
        obtain ⟨e1, e2, _⟩ := openCommon_ok_inv h
        exact ⟨by rw [e1]; simp [openLiteral, hs], e2⟩

/-- Claim C7 witness: an EQUALS open of the literal "/a" holds exactly the
root ["/a"]. -/
theorem open_single_starting_root_witness :
    (oftsOf (oval_fts_open envOK pcOK 0 (some pathEntEq) none none behPlain)).ofts_st_path
        = ["/a"]
    ∧ (oftsOf (oval_fts_open envOK pcOK 0 (some pathEntEq) none none behPlain)).ofts_st_path_count
        = 1 := by
  have hx : oval_fts_open envOK pcOK 0 (some pathEntEq) none none behPlain
      = OpenOutcome.ok
          (oftsOf (oval_fts_open envOK pcOK 0 (some pathEntEq) none none behPlain)) := rfl
  have hres := open_single_starting_root hx
  exact ⟨hres.1.trans (by decide), hres.2⟩

/-- Claim C8: a successful PATTERN_MATCH open keeps the compiled regex for
partial-match pruning exactly when the pattern's first literal byte is '/'
(code 47) or the pattern is caret-anchored (firstbyte -2), and the engine
did not reject the PCRE_PARTIAL probe; otherwise the handle carries no
pruning regex. -/
theorem open_pattern_prunability
    {env : SysEnv} {pc : PcreEnv} {junk : Nat}
    {path filename filepath : Option EntityDef} {behaviors : BehaviorsDef}
    {ofts : OVAL_FTS}
    (hop : openOp path filepath = OVAL_OPERATION_PATTERN_MATCH)
    (h : oval_fts_open env pc junk path filename filepath behaviors = .ok ofts) :
    ofts.ofts_path_regex
      = (if (pc.firstbyte (openLiteral path filepath) = 47
              ∨ pc.firstbyte (openLiteral path filepath) = -2)
            ∧ pc.probeRet (openLiteral path filepath) ≠ PCRE_ERROR_BADPARTIAL
         then some (openLiteral path filepath) else none) := by
  cases path with
  | some p =>
    cases hs : p.strval with
    | err => simp [oval_fts_open, hs] at h
    | nil => simp [oval_fts_open, hs] at h
    | val s =>
      simp only [oval_fts_open, hs] at h
      cases hf : filenameStr filename with
      | none => rw [hf] at h; cases h
      | some nilfn =>
        rw [hf] at h
        cases hb : parseBehaviors behaviors with
        | none => rw [hb] at h; cases h
        | some quad =>
          rw [hb] at h
          obtain ⟨md, dir, rcrs, fs⟩ := quad
          obtain ⟨_, _, e3⟩ := openCommon_ok_inv h
          have hlit : openLiteral (some p) filepath = s := by simp [openLiteral, hs]
          rw [hlit, e3]
          simp [hop]
  | none =>
    cases filepath with
    | none => simp [oval_fts_open] at h
    | some fp =>
      cases hs : fp.strval with
      | err => simp [oval_fts_open, hs] at h
      | nil => simp [oval_fts_open, hs] at h
      | val s =>
        simp only [oval_fts_open, hs] at h
        obtain ⟨_, _, e3⟩ := openCommon_ok_inv h
        have hlit : openLiteral none (some fp) = s := by simp [openLiteral, hs]
        rw [hlit, e3]
        simp [hop]

/-- Claim C8 witness: a caret-anchored pattern whose partial probe is
accepted keeps its regex. -/
theorem open_pattern_prunability_witness :
    (oftsOf (oval_fts_open envOK pcAnchored 0 (some pathEntPat) none none behPlain)).ofts_path_regex
        = some "^/etc/.*" := by
  have hx : oval_fts_open envOK pcAnchored 0 (some pathEntPat) none none behPlain
      = OpenOutcome.ok
          (oftsOf (oval_fts_open envOK pcAnchored 0 (some pathEntPat) none none behPlain)) := rfl
  have hres := open_pattern_prunability (by decide) hx
  exact hres.trans (by decide)

/-- Claim C9: when pcre_compile fails, open returns a null handle but the
already created handle struct, the open driver handle and the starting path
vector are not released — the propagation policy of the spec is violated. -/
theorem open_pcre_failure_leaks :
    oval_fts_open envOK pcBad 0 (some pathEntBad) none none behPlain
        = .fail [Res.ofts_struct, Res.fts_handle, Res.paths_vec]
    ∧ ([Res.ofts_struct, Res.fts_handle, Res.paths_vec] : List Res) ≠ [] := by
  exact ⟨rfl, by decide⟩

/-- Claim C10: a handle opened in filepath mode never consults the
behaviors record (the same handle results from any behaviors value);
max_depth, direction and filesystem stay -1 and no device set exists; with
direction -1 the steering switch matches no case and issues no directive,
and without a pruning regex every loop iteration ends in an undirected
continue, so nothing bounds the traversal. -/
theorem filepath_mode_behaviors_ignored
    {env : SysEnv} {pc : PcreEnv} {junk : Nat} {fn : Option EntityDef}
    {fpe : EntityDef} {b : BehaviorsDef} {ofts : OVAL_FTS}
    (b' : BehaviorsDef)
    (h : oval_fts_open env pc junk none fn (some fpe) b = .ok ofts) :
    (ofts.max_depth = -1 ∧ ofts.direction = -1 ∧ ofts.filesystem = -1
      ∧ ofts.localdevs = none)
    ∧ oval_fts_open env pc junk none fn (some fpe) b' = .ok ofts
    ∧ (∀ ent, steerEntry ofts ent = .go)
    ∧ (ofts.ofts_path_regex = none →
        ∀ (cmp : Nat → String → OvalResult) (pcre : String → Nat → Int) (ent : FTSENT),
          ∃ y, processEntry cmp pcre ofts ent = .cont y .go) := by
  cases hs : fpe.strval with
  | err => simp [oval_fts_open, hs] at h
  | nil => simp [oval_fts_open, hs] at h
  | val s =>
    simp only [oval_fts_open, hs] at h
    obtain ⟨e1, e2, e3, e4, _⟩ := openCommon_fp_inv h
    have hsteer : ∀ ent, steerEntry ofts ent = .go := by
      intro ent
      simp [steerEntry, e2, OVAL_RECURSE_DIRECTION_NONE, OVAL_RECURSE_DIRECTION_DOWN,
            OVAL_RECURSE_DIRECTION_UP]
    refine ⟨⟨e1, e2, e3, e4⟩, ?_, hsteer, ?_⟩
    · simp only [oval_fts_open, hs]
      exact h
    · intro hrx cmp pcre ent
      obtain ⟨p, pl, nm, nl, lv, info, stt⟩ := ent
      cases info with
      | DP => exact ⟨none, rfl⟩
      | DC => exact ⟨none, rfl⟩
      | D => exact ⟨yieldOf cmp ofts ⟨p, pl, nm, nl, lv, .D, stt⟩,
                    by simp [processEntry, hrx, hsteer]⟩
      | F => exact ⟨yieldOf cmp ofts ⟨p, pl, nm, nl, lv, .F, stt⟩,
                    by simp [processEntry, hrx, hsteer]⟩
      | SL => exact ⟨yieldOf cmp ofts ⟨p, pl, nm, nl, lv, .SL, stt⟩,
                     by simp [processEntry, hrx, hsteer]⟩
      | SLNONE => exact ⟨yieldOf cmp ofts ⟨p, pl, nm, nl, lv, .SLNONE, stt⟩,
                         by simp [processEntry, hrx, hsteer]⟩

/-- Claim C10 witness: a concrete filepath-mode open, unchanged under a
behaviors record that path mode would reject, with undirected steering. -/
theorem filepath_mode_behaviors_ignored_witness :
    ((oftsOf (oval_fts_open envOK pcOK 0 none none (some fpEntW) behPlain)).max_depth = -1
      ∧ (oftsOf (oval_fts_open envOK pcOK 0 none none (some fpEntW) behPlain)).direction = -1
      ∧ (oftsOf (oval_fts_open envOK pcOK 0 none none (some fpEntW) behPlain)).filesystem = -1
      ∧ (oftsOf (oval_fts_open envOK pcOK 0 none none (some fpEntW) behPlain)).localdevs = none)
    ∧ oval_fts_open envOK pcOK 0 none none (some fpEntW) behOther
        = OpenOutcome.ok (oftsOf (oval_fts_open envOK pcOK 0 none none (some fpEntW) behPlain))
    ∧ steerEntry (oftsOf (oval_fts_open envOK pcOK 0 none none (some fpEntW) behPlain)) entW1
        = Steer.go := by
  have hx : oval_fts_open envOK pcOK 0 none none (some fpEntW) behPlain
      = OpenOutcome.ok
          (oftsOf (oval_fts_open envOK pcOK 0 none none (some fpEntW) behPlain)) := rfl
  have hres := filepath_mode_behaviors_ignored behOther hx
  exact ⟨hres.1, hres.2.1, hres.2.2.1 entW1⟩
